import Mathlib

/-
Verification of the pismoker-js pellet-smoker controller sources.

The definitions below are a shallow embedding of the TypeScript sources:
  * PIDController                  (pid controller, unnamed part_001)
  * TimedSwitchDevice and
    LatchedSwitchDevice            (duty-cycle actuators, unnamed part_001)
  * MAX31865 register protocol and
    temperature decode             (src/rtd/max31865.ts)
  * Traeger orchestrator           (src/traeger.ts)

JavaScript numbers are modelled as rationals; the possibly-infinite actuator
durations (Number.POSITIVE_INFINITY) as a dedicated Duration type; the
JavaScript event loop's single scheduled timeout as an Option field; Promise
rejection of the SPI transport as Except.  Wall-clock reads (Date.now) become
explicit now parameters.
-/

/- ------------------------------------------------------------------ -/
/- PIDController (source: unnamed part_001, second file section)      -/
/- ------------------------------------------------------------------ -/

/-- Source: const clamp = (v, min, max) => Math.min(Math.max(v, min), max). -/
def clamp (v lo hi : ℚ) : ℚ := min (max v lo) hi

structure PIDController where
  Kp : ℚ
  Ki : ℚ
  Kd : ℚ
  lastTime : ℚ
  sumT : ℚ
  tempSetPoint : ℚ
  maxIntegrator : ℚ
deriving DecidableEq

/-- Source: constructor(pb, ti, td) of PIDController. -/
def mkPID (pb ti td : ℚ) : PIDController :=
  let Kp := -1.0 / pb
  let Ki := Kp / ti
  let Kd := Kp * td
  { Kp := Kp
    Ki := Ki
    Kd := Kd
    maxIntegrator := |0.5 / Ki|
    lastTime := 0
    tempSetPoint := 0
    sumT := 0 }

/-- Source: setDesiredTemp(T). -/
def PIDController.setDesiredTemp (d : PIDController) (T : ℚ) : PIDController :=
  { d with tempSetPoint := T, lastTime := 0, sumT := 0 }

/-- Source: _calculateIntegratorResponse(error, dt); returns the I term and
the controller with the clamped integrator stored back. -/
def PIDController.calculateIntegratorResponse (d : PIDController) (error dt : ℚ) :
    ℚ × PIDController :=
  let maxI := d.maxIntegrator
  let dI := error * dt
  let I := clamp (d.sumT + dI) (-maxI) maxI
  (d.Ki * I, { d with sumT := I })

/-- Source: _calculateDerivativeResponse(error, dt). -/
def PIDController.calculateDerivativeResponse (d : PIDController) (error dt : ℚ) : ℚ :=
  d.Kd * (error / dt)

/-- Source: _calculateProportionalResponse(error). -/
def PIDController.calculateProportionalResponse (d : PIDController) (error : ℚ) : ℚ :=
  d.Kp * error + 0.5

/-- The output of getControllerResponse: the returned u together with the
decomposition handed to the optional callback, plus the updated state. -/
structure PIDResponse where
  u : ℚ
  P : ℚ
  I : ℚ
  D : ℚ
  state : PIDController
deriving DecidableEq

/-- Source: getControllerResponse(T, cb); Date.now() becomes the now argument. -/
def PIDController.getControllerResponse (d : PIDController) (T now : ℚ) : PIDResponse :=
  let dt := now - d.lastTime
  let error := T - d.tempSetPoint
  let P := d.calculateProportionalResponse error
  let r := d.calculateIntegratorResponse error dt
  let D := d.calculateDerivativeResponse error dt
  let u := P + r.1 + D
  { u := u, P := P, I := r.1, D := D, state := { r.2 with lastTime := now } }

/-- One externally visible PID call, for quantifying over call sequences. -/
inductive PIDOp
  | setTemp (T : ℚ)
  | respond (T : ℚ) (now : ℚ)

/-- Runs a sequence of setDesiredTemp / getControllerResponse calls. -/
def PIDController.runOps (d : PIDController) : List PIDOp → PIDController
  | [] => d
  | PIDOp.setTemp T :: rest => (d.setDesiredTemp T).runOps rest
  | PIDOp.respond T now :: rest => ((d.getControllerResponse T now).state).runOps rest

/-- The integrator bound invariant claimed by the spec. -/
def PIDInv (d : PIDController) : Prop :=
  -d.maxIntegrator ≤ d.sumT ∧ d.sumT ≤ d.maxIntegrator

/- ------------------------------------------------------------------ -/
/- TimedSwitchDevice / LatchedSwitchDevice (unnamed part_001)         -/
/- ------------------------------------------------------------------ -/

/-- The on / off events emitted by a TimedSwitchDevice. -/
inductive DevEvent
  | evOn
  | evOff
deriving DecidableEq

/-- A JavaScript cycle-time value: a finite number of milliseconds or
Number.POSITIVE_INFINITY (the off duration of a LatchedSwitchDevice). -/
inductive Duration
  | fin (ms : ℚ)
  | inf
deriving DecidableEq

/-- The source comparison Date.now() - this._toggledTime > duration; a
JavaScript comparison against POSITIVE_INFINITY is always false. -/
def Duration.exceeded (d : Duration) (elapsed : ℚ) : Prop :=
  match d with
  | Duration.fin ms => ms < elapsed
  | Duration.inf => False

instance (d : Duration) (e : ℚ) : Decidable (d.exceeded e) :=
  match d with
  | Duration.fin ms => (inferInstance : Decidable (ms < e))
  | Duration.inf => isFalse (fun h => h)

/-- State of a TimedSwitchDevice.  pending models the single live setTimeout
callback (none when no callback is scheduled); its Bool payload is the
stopAfterNext value the scheduled closure captured. -/
structure TimedSwitchDevice where
  isOn : Bool
  toggledTime : ℚ
  started : Bool
  pending : Option Bool
  onCycleTime : Duration
  offCycleTime : Duration
  interruptInterval : ℚ
deriving DecidableEq

/-- Source: constructor(onCycleTime, offCycleTime, loopInterval = 500). -/
def TimedSwitchDevice.make (onC offC : Duration) (loopInterval : ℚ) : TimedSwitchDevice :=
  { isOn := false
    toggledTime := 0
    started := false
    pending := none
    onCycleTime := onC
    offCycleTime := offC
    interruptInterval := loopInterval }

/-- Source: stop(); clears the started flag and cancels the scheduled timeout. -/
def TimedSwitchDevice.stop (d : TimedSwitchDevice) : TimedSwitchDevice :=
  { d with started := false, pending := none }

/-- Source: start(stopAfterNext?); schedules one timeout when not started. -/
def TimedSwitchDevice.start (d : TimedSwitchDevice) (stopAfterNext : Bool) : TimedSwitchDevice :=
  if d.started then d
  else { d with started := true, pending := some stopAfterNext }

/-- Source: _resetCallbackLoop() = stop(); start(). -/
def TimedSwitchDevice.resetCallbackLoop (d : TimedSwitchDevice) : TimedSwitchDevice :=
  d.stop.start false

/-- Source: turnOn(); Date.now() becomes the now argument. -/
def TimedSwitchDevice.turnOn (d : TimedSwitchDevice) (now : ℚ) :
    TimedSwitchDevice × List DevEvent :=
  if d.isOn then (d, [])
  else (({ d with isOn := true, toggledTime := now }).resetCallbackLoop, [DevEvent.evOn])

/-- Source: turnOff(). -/
def TimedSwitchDevice.turnOff (d : TimedSwitchDevice) (now : ℚ) :
    TimedSwitchDevice × List DevEvent :=
  if d.isOn then (({ d with isOn := false, toggledTime := now }).resetCallbackLoop, [DevEvent.evOff])
  else (d, [])

/-- Source: setOnCycleTime(time). -/
def TimedSwitchDevice.setOnCycleTime (d : TimedSwitchDevice) (t : Duration) :
    TimedSwitchDevice :=
  ({ d with onCycleTime := t }).resetCallbackLoop

/-- Source: setOffCycleTime(time). -/
def TimedSwitchDevice.setOffCycleTime (d : TimedSwitchDevice) (t : Duration) :
    TimedSwitchDevice :=
  ({ d with offCycleTime := t }).resetCallbackLoop

/-- The scheduled timeout callback firing at time now.  The source closure fn
checks the elapsed time against the current phase duration, toggles when
exceeded, and then calls this.start() again when its captured stopAfterNext
was truthy. -/
def TimedSwitchDevice.fire (d : TimedSwitchDevice) (now : ℚ) :
    TimedSwitchDevice × List DevEvent :=
  match d.pending with
  | none => (d, [])
  | some saf =>
    let d0 := { d with pending := none }
    let r :=
      if d0.isOn then
        if d0.onCycleTime.exceeded (now - d0.toggledTime) then d0.turnOff now
        else (d0, [])
      else
        if d0.offCycleTime.exceeded (now - d0.toggledTime) then d0.turnOn now
        else (d0, [])
    if saf then (r.1.start false, r.2) else r

/-- Externally visible operations on a TimedSwitchDevice, with the events
each one emits. -/
inductive DevOp
  | doStart (stopAfterNext : Bool)
  | doStop
  | doTurnOn
  | doTurnOff
  | doSetOnCycleTime (t : Duration)
  | doSetOffCycleTime (t : Duration)
  | doFire

/-- Dispatches one operation; operations that contain no emit call in the
source produce no events. -/
def TimedSwitchDevice.step (d : TimedSwitchDevice) (op : DevOp) (now : ℚ) :
    TimedSwitchDevice × List DevEvent :=
  match op with
  | DevOp.doStart saf => (d.start saf, [])
  | DevOp.doStop => (d.stop, [])
  | DevOp.doTurnOn => d.turnOn now
  | DevOp.doTurnOff => d.turnOff now
  | DevOp.doSetOnCycleTime t => (d.setOnCycleTime t, [])
  | DevOp.doSetOffCycleTime t => (d.setOffCycleTime t, [])
  | DevOp.doFire => d.fire now

/-- Source: class LatchedSwitchDevice wraps a TimedSwitchDevice. -/
structure LatchedSwitchDevice where
  timedDevice : TimedSwitchDevice
deriving DecidableEq

/-- Source: constructor(cycleTime) builds the inner device with
offCycleTime = Number.POSITIVE_INFINITY (and the default 500 ms loop). -/
def LatchedSwitchDevice.make (cycleTime : Duration) : LatchedSwitchDevice :=
  ⟨TimedSwitchDevice.make cycleTime Duration.inf 500⟩

/-- Source: get isOn() delegates to the inner device. -/
def LatchedSwitchDevice.isOn (l : LatchedSwitchDevice) : Bool := l.timedDevice.isOn

/-- Source: turnOn() delegates. -/
def LatchedSwitchDevice.turnOn (l : LatchedSwitchDevice) (now : ℚ) :
    LatchedSwitchDevice × List DevEvent :=
  let r := l.timedDevice.turnOn now
  (⟨r.1⟩, r.2)

/-- The inner device's scheduled callback firing. -/
def LatchedSwitchDevice.fire (l : LatchedSwitchDevice) (now : ℚ) :
    LatchedSwitchDevice × List DevEvent :=
  let r := l.timedDevice.fire now
  (⟨r.1⟩, r.2)

/- ------------------------------------------------------------------ -/
/- MAX31865 register protocol and temperature decode                  -/
/- (source: src/rtd/max31865.ts)                                      -/
/- ------------------------------------------------------------------ -/

/-- Operations issued on the SPI bus, at the granularity of the source's
register access primitives (_readUint8, _writeUint8, _readUint16) plus the
explicit _delay waits between them. -/
inductive BusOp
  | readReg8 (reg : Nat)
  | writeReg8 (reg : Nat) (byte : Nat)
  | readReg16 (reg : Nat)
  | delay (ms : Nat)
deriving DecidableEq

/-- Source: _writeUint8(register, data) computes the byte actually placed in
the send buffer as data & 0x08. -/
def writeUint8ByteSent (data : Nat) : Nat := data &&& 0x08

/-- Source: _toggleConfigBit(predicate, bitLocation): the read-modify-write
value derived from the config byte readConfig the device returned.  The
JavaScript operator ~ is 32-bit complement, modelled as xor with 0xFFFFFFFF. -/
def toggleConfigBitNewConfig (readConfig : Nat) (predicate : Bool) (bitLocation : Nat) : Nat :=
  if predicate then readConfig ||| bitLocation
  else readConfig &&& (0xFFFFFFFF ^^^ bitLocation)

/-- Bus operations of one _toggleConfigBit call, given the config byte cfg the
device answers with: a config read then a config write of the masked byte. -/
def toggleConfigBitOps (cfg : Nat) (predicate : Bool) (bitLocation : Nat) : List BusOp :=
  [BusOp.readReg8 0x00,
   BusOp.writeReg8 0x80 (writeUint8ByteSent (toggleConfigBitNewConfig cfg predicate bitLocation))]

/-- Source: clearFaultStatus() = _toggleConfigBit(true, 0x02). -/
def clearFaultStatusOps (cfg : Nat) : List BusOp := toggleConfigBitOps cfg true 0x02

/-- Source: setBiasVoltage(biasOn) = _toggleConfigBit(biasOn, 0x80). -/
def setBiasVoltageOps (cfg : Nat) (biasOn : Bool) : List BusOp :=
  toggleConfigBitOps cfg biasOn 0x80

/-- Source: setOneShot() = _toggleConfigBit(true, 0x20). -/
def setOneShotOps (cfg : Nat) : List BusOp := toggleConfigBitOps cfg true 0x20

/-- Bus operations of one readRTD() call, given the three config bytes the
device answers with during the three read-modify-write toggles. -/
def readRTD_ops (c0 c1 c2 : Nat) : List BusOp :=
  clearFaultStatusOps c0 ++ setBiasVoltageOps c1 true
    ++ [BusOp.delay 10] ++ setOneShotOps c2 ++ [BusOp.delay 65]
    ++ [BusOp.readReg16 0x01]

/-- A rejected SPI transfer (the err the spi-device callback reports). -/
structure TransportError where
  code : Nat
deriving DecidableEq

/-- Source: _readUint16 resolves (msb << 8) | lsb. -/
def readUint16Value (msb lsb : Nat) : Nat := (msb <<< 8) ||| lsb

/-- Source: readRTD() returns rawValue >> 1. -/
def readRTDResult (rawValue : Nat) : Nat := rawValue >>> 1

/-- readRTD() as a computation over a fallible transport: env n is the result
of the n-th SPI transfer of the sequence (indices 0..6: the config read and
write of clearFaultStatus, of setBiasVoltage(true), of setOneShot, then the
16-bit RTD register read).  A rejected transfer makes the awaited promise
throw, so the whole call stops with that error. -/
def readRTD_run (env : Nat → Except TransportError Nat) : Except TransportError Nat :=
  match env 0 with
  | Except.error e => Except.error e
  | Except.ok _ =>
  match env 1 with
  | Except.error e => Except.error e
  | Except.ok _ =>
  match env 2 with
  | Except.error e => Except.error e
  | Except.ok _ =>
  match env 3 with
  | Except.error e => Except.error e
  | Except.ok _ =>
  match env 4 with
  | Except.error e => Except.error e
  | Except.ok _ =>
  match env 5 with
  | Except.error e => Except.error e
  | Except.ok _ =>
  match env 6 with
  | Except.error e => Except.error e
  | Except.ok rawValue => Except.ok (readRTDResult rawValue)

/-- Source: this._rtdA = 3.9083e-3. -/
def rtdA : ℚ := 3.9083e-3

/-- Source: this._rtdB = -5.775e-7. -/
def rtdB : ℚ := -5.775e-7

/-- Source: this._coeffs5thOrder. -/
def coeffs5thOrder : List ℚ :=
  [1.5243e-10, -2.8183e-8, -4.826e-6, 2.5859e-3, 2.2228, -242.02]

/-- Source: the loop res = cs[0]; for i in 1..: res = res * r + cs[i]. -/
def hornerPoly (cs : List ℚ) (r : ℚ) : ℚ :=
  match cs with
  | [] => 0
  | c :: rest => rest.foldl (fun res ci => res * r + ci) c

/-- The discriminant argument z2 + z3 * Rt computed in getTemperature. -/
def codeT1 (R0 Rt : ℚ) : ℚ := rtdA * rtdA - 4 * rtdB + 4 * rtdB / R0 * Rt

/-- The quadratic-branch candidate t = (sqrt(t1) + z1) / z4 computed in
getTemperature, with the square root function s passed in explicitly (the
source calls Math.sqrt). -/
def codeQuadT (s : ℚ → ℚ) (R0 Rt : ℚ) : ℚ :=
  (s (codeT1 R0 Rt) + -rtdA) / (2 * rtdB)

/-- Modelled from the spec: the closed form
T = (sqrt(A^2 - 4B + 4B*R/R0) - A) / (2B) the spec requires for the T >= 0
branch, to be compared with the source's z1..z4 formulation. -/
def specQuadT (s : ℚ → ℚ) (R0 R : ℚ) : ℚ :=
  (s (rtdA * rtdA - 4 * rtdB + 4 * rtdB * R / R0) - rtdA) / (2 * rtdB)

/-- Source: the body of getTemperature() after Rt has been obtained, with the
square root function s passed in explicitly. -/
def getTemperatureFromRt (s : ℚ → ℚ) (R0 Rt : ℚ) : ℚ :=
  let A := rtdA
  let B := rtdB
  let z1 := -A
  let z2 := A * A - 4 * B
  let z3 := 4 * B / R0
  let z4 := 2 * B
  let t1 := z2 + z3 * Rt
  let t := (s t1 + z1) / z4
  if 0 ≤ t then t
  else
    let RRt := Rt / R0 * 100
    hornerPoly coeffs5thOrder RRt

/-- Source: getTemperature() = readRTD(), then Rt = raw / 32768 * Rref, then
the decode; a transport error from readRTD propagates to the caller. -/
def getTemperature_run (s : ℚ → ℚ) (R0 Rref : ℚ)
    (env : Nat → Except TransportError Nat) : Except TransportError ℚ :=
  match readRTD_run env with
  | Except.error e => Except.error e
  | Except.ok raw => Except.ok (getTemperatureFromRt s R0 ((raw : ℚ) / 32768 * Rref))

/- ------------------------------------------------------------------ -/
/- Traeger orchestrator (source: src/traeger.ts)                      -/
/- ------------------------------------------------------------------ -/

inductive TraegerState
  | off
  | shutdown
  | start
  | smoke
  | ignite
  | hold
deriving DecidableEq

/-- The invalid-transition failure the claim expects setState to raise. -/
structure InvalidTransitionError where
  src : TraegerState
  dst : TraegerState
deriving DecidableEq

/-- The transitions registered on the FiniteStateMachine in the Traeger
constructor: fsm.from(Off).to(Start); fsm.from(Start).to(Hold);
fsm.from(Start).to(Smoke). -/
def fsmTransitions : List (TraegerState × TraegerState) :=
  [(TraegerState.off, TraegerState.start),
   (TraegerState.start, TraegerState.hold),
   (TraegerState.start, TraegerState.smoke)]

/-- The Traeger controller's observable state: the state machine's current
state (initialised to Off in the constructor). -/
structure Traeger where
  fsmState : TraegerState
deriving DecidableEq

/-- Source: the constructor leaves the state machine in TraegerState.Off. -/
def Traeger.init : Traeger := ⟨TraegerState.off⟩

/-- Source: public setState(state: TraegerState) \x7b\x7d — the body is empty:
it consults nothing, changes nothing and throws nothing, so it is the
identity with no error outcome. -/
def Traeger.setState (t : Traeger) (s : TraegerState) : Except InvalidTransitionError Traeger :=
  Except.ok t

/-- The duty-cycle actuator of the spec's testable-properties example:
onDuration 1000 ms, offDuration 2000 ms, default 500 ms loop. -/
def pollDev : TimedSwitchDevice :=
  TimedSwitchDevice.make (Duration.fin 1000) (Duration.fin 2000) 500

/-- The latched actuator of the spec's testable-properties example:
cycleTime 5000 ms. -/
def latchDev : LatchedSwitchDevice := LatchedSwitchDevice.make (Duration.fin 5000)

/- ------------------------------------------------------------------ -/
/- Theorems                                                           -/
/- ------------------------------------------------------------------ -/

theorem clamp_le_hi (v lo hi : ℚ) : clamp v lo hi ≤ hi := min_le_right _ _

theorem lo_le_clamp (v lo hi : ℚ) (h : lo ≤ hi) : lo ≤ clamp v lo hi :=
  le_min (le_max_right _ _) h

theorem clamp_eq_hi (v lo hi : ℚ) (h : hi ≤ v) : clamp v lo hi = hi := by
  unfold clamp
  rw [min_eq_right]
  exact le_trans h (le_max_left _ _)

theorem clamp_eq_lo (v lo hi : ℚ) (hv : v ≤ lo) (h : lo ≤ hi) : clamp v lo hi = lo := by
  unfold clamp
  rw [max_eq_right hv, min_eq_left h]

/-- A device with no scheduled callback never wakes again: fire is the
identity and emits nothing. -/
theorem fire_of_pending_none (d : TimedSwitchDevice) (now : ℚ) (h : d.pending = none) :
    d.fire now = (d, []) := by
  unfold TimedSwitchDevice.fire
  rw [h]

/-- C2.  The claim says the byte transmitted to the config write register is
the read-modify-write byte unmodified; the source's _writeUint8 instead masks
it with 0x08, so clearing fault status after reading config byte 0x00
computes 0x02 but transmits 0x00 (and the bias-enable write of 0x80 also
transmits 0x00). -/
theorem writeUint8_masks_data_byte :
    toggleConfigBitNewConfig 0x00 true 0x02 = 0x02
      ∧ writeUint8ByteSent (toggleConfigBitNewConfig 0x00 true 0x02) = 0x00
      ∧ toggleConfigBitNewConfig 0x00 true 0x80 = 0x80
      ∧ writeUint8ByteSent (toggleConfigBitNewConfig 0x00 true 0x80) = 0x00
      ∧ (∀ data : Nat, writeUint8ByteSent data = data &&& 0x08) := by
  exact ⟨by decide, by decide, by decide, by decide, fun _ => rfl⟩

/-- C6.  readRTD issues, in order: the clear-fault read-modify-write
(bit 0x02), the bias-enable read-modify-write (bit 0x80), a 10 ms wait, the
one-shot read-modify-write (bit 0x20), a 65 ms wait, and the 16-bit RTD
register read; when every transfer succeeds the returned raw code is the
16-bit value shifted right by one, so register value 0x0002 decodes to 1 and
the fault bit 0x0001 never changes the returned magnitude. -/
theorem readRTD_sequence_and_shift (c0 c1 c2 : Nat) (f : Nat → Nat) :
    readRTD_ops c0 c1 c2 =
      [BusOp.readReg8 0x00,
       BusOp.writeReg8 0x80 (writeUint8ByteSent (toggleConfigBitNewConfig c0 true 0x02)),
       BusOp.readReg8 0x00,
       BusOp.writeReg8 0x80 (writeUint8ByteSent (toggleConfigBitNewConfig c1 true 0x80)),
       BusOp.delay 10,
       BusOp.readReg8 0x00,
       BusOp.writeReg8 0x80 (writeUint8ByteSent (toggleConfigBitNewConfig c2 true 0x20)),
       BusOp.delay 65,
       BusOp.readReg16 0x01]
      ∧ readRTD_run (fun k => Except.ok (f k)) = Except.ok (readRTDResult (f 6))
      ∧ readRTDResult (readUint16Value 0x00 0x02) = 1
      ∧ (∀ v : Nat, readRTDResult (v ||| 1) = readRTDResult v) := by
  refine ⟨?_, ?_, by decide, ?_⟩
  · simp [readRTD_ops, clearFaultStatusOps, setBiasVoltageOps, setOneShotOps, toggleConfigBitOps]
  · simp [readRTD_run]
  · intro v
    unfold readRTDResult
    apply Nat.eq_of_testBit_eq
    intro i
    simp [Nat.testBit_shiftRight, Nat.testBit_lor, Nat.testBit_one_eq_true_iff_self_eq_zero]

/-- C8.  The claim says a request outside the allowed transition set fails
with an InvalidTransitionError and never silently no-ops; the source's
setState has an empty body, so every request (here Smoke to Off, and Off to
Off from the initial state) succeeds without doing anything, and the
constructor registers only Off-Start, Start-Hold and Start-Smoke, not the
rest of the claimed transition set. -/
theorem setState_silent_noop :
    Traeger.setState ⟨TraegerState.smoke⟩ TraegerState.off = Except.ok ⟨TraegerState.smoke⟩
      ∧ Traeger.init.setState TraegerState.off = Except.ok Traeger.init
      ∧ (∀ (t : Traeger) (s : TraegerState), t.setState s = Except.ok t)
      ∧ (TraegerState.smoke, TraegerState.ignite) ∉ fsmTransitions
      ∧ (TraegerState.ignite, TraegerState.hold) ∉ fsmTransitions
      ∧ (TraegerState.hold, TraegerState.shutdown) ∉ fsmTransitions
      ∧ (TraegerState.shutdown, TraegerState.off) ∉ fsmTransitions := by
  exact ⟨rfl, rfl, fun _ _ => rfl, by decide, by decide, by decide, by decide⟩

/-- C10.  setOnCycleTime and setOffCycleTime change only the targeted
duration and restart the timer loop (started becomes true with a fresh
scheduled check); the output state, the last-toggle timestamp and the other
duration are unchanged and no event is emitted. -/
theorem setCycleTime_frame (d : TimedSwitchDevice) (t : Duration) (now : ℚ) :
    d.step (DevOp.doSetOnCycleTime t) now
        = ({ d with onCycleTime := t, started := true, pending := some false }, [])
      ∧ d.step (DevOp.doSetOffCycleTime t) now
        = ({ d with offCycleTime := t, started := true, pending := some false }, []) := by
  constructor <;>
    simp [TimedSwitchDevice.step, TimedSwitchDevice.setOnCycleTime,
      TimedSwitchDevice.setOffCycleTime, TimedSwitchDevice.resetCallbackLoop,
      TimedSwitchDevice.stop, TimedSwitchDevice.start]

/-- C3.  The claim says start() makes the loop wake repeatedly until stop()
and that start(true) performs exactly one check and halts.  In the source the
callback is a one-shot timeout that only reschedules through a toggle: after
start(), the 500 ms check on the example device (on 1000 / off 2000, device
off since time 0 with elapsed 500 not yet over the off duration) leaves no
scheduled callback even though started is still true and stop() was never
called, so the loop is dead; and after start(true) a check that does toggle
(elapsed 2500 over the off duration) reschedules the loop, so it does not
halt after its single check. -/
theorem timerLoop_halts_without_stop :
    ((pollDev.start false).fire 500).1.started = true
      ∧ ((pollDev.start false).fire 500).1.pending = none
      ∧ ((pollDev.start false).fire 500).2 = []
      ∧ (∀ now : ℚ, (((pollDev.start false).fire 500).1).fire now
            = (((pollDev.start false).fire 500).1, []))
      ∧ ((pollDev.start true).fire 2500).1.pending = some false
      ∧ ((pollDev.start true).fire 2500).2 = [DevEvent.evOn] := by
  refine ⟨?_, ?_, ?_, ?_, ?_, ?_⟩ <;>
    norm_num [pollDev, TimedSwitchDevice.fire, TimedSwitchDevice.make, TimedSwitchDevice.start,
      TimedSwitchDevice.turnOn, TimedSwitchDevice.turnOff, TimedSwitchDevice.resetCallbackLoop,
      TimedSwitchDevice.stop, Duration.exceeded]

/-- C9.  The claim says a latched actuator turned on at time 0 auto-turns-off
after its 5000 ms cycle time.  In the source the 500 ms check after turnOn()
does not toggle (elapsed 500 is under the cycle time) and therefore does not
reschedule, so the device stays on with no scheduled callback: every later
fire is the identity and the output never auto-turns-off.  The other half of
the claim does hold: with offCycleTime infinite the off-phase trigger is
never satisfied, so a latched device that is off never auto-turns-on. -/
theorem latched_stays_on_after_cycle :
    ((latchDev.turnOn 0).1.fire 500).1.isOn = true
      ∧ ((latchDev.turnOn 0).1.fire 500).1.timedDevice.pending = none
      ∧ ((latchDev.turnOn 0).1.fire 500).2 = []
      ∧ (∀ now : ℚ, (((latchDev.turnOn 0).1.fire 500).1).fire now
            = (((latchDev.turnOn 0).1.fire 500).1, []))
      ∧ (∀ (tg now : ℚ) (p : Option Bool) (st : Bool) (onC : Duration),
          (LatchedSwitchDevice.fire ⟨⟨false, tg, st, p, onC, Duration.inf, 500⟩⟩ now).1.isOn
            = false) := by
  refine ⟨?_, ?_, ?_, ?_, ?_⟩
  · norm_num [latchDev, LatchedSwitchDevice.make, LatchedSwitchDevice.turnOn,
      LatchedSwitchDevice.fire, LatchedSwitchDevice.isOn, TimedSwitchDevice.fire,
      TimedSwitchDevice.make, TimedSwitchDevice.start, TimedSwitchDevice.turnOn,
      TimedSwitchDevice.turnOff, TimedSwitchDevice.resetCallbackLoop, TimedSwitchDevice.stop,
      Duration.exceeded]
  · norm_num [latchDev, LatchedSwitchDevice.make, LatchedSwitchDevice.turnOn,
      LatchedSwitchDevice.fire, LatchedSwitchDevice.isOn, TimedSwitchDevice.fire,
      TimedSwitchDevice.make, TimedSwitchDevice.start, TimedSwitchDevice.turnOn,
      TimedSwitchDevice.turnOff, TimedSwitchDevice.resetCallbackLoop, TimedSwitchDevice.stop,
      Duration.exceeded]
  · norm_num [latchDev, LatchedSwitchDevice.make, LatchedSwitchDevice.turnOn,
      LatchedSwitchDevice.fire, LatchedSwitchDevice.isOn, TimedSwitchDevice.fire,
      TimedSwitchDevice.make, TimedSwitchDevice.start, TimedSwitchDevice.turnOn,
      TimedSwitchDevice.turnOff, TimedSwitchDevice.resetCallbackLoop, TimedSwitchDevice.stop,
      Duration.exceeded]
  · norm_num [latchDev, LatchedSwitchDevice.make, LatchedSwitchDevice.turnOn,
      LatchedSwitchDevice.fire, LatchedSwitchDevice.isOn, TimedSwitchDevice.fire,
      TimedSwitchDevice.make, TimedSwitchDevice.start, TimedSwitchDevice.turnOn,
      TimedSwitchDevice.turnOff, TimedSwitchDevice.resetCallbackLoop, TimedSwitchDevice.stop,
      Duration.exceeded]
  · intro tg now p st onC
    cases p with
    | none =>
      simp [LatchedSwitchDevice.fire, LatchedSwitchDevice.isOn, TimedSwitchDevice.fire,
        TimedSwitchDevice.turnOn, TimedSwitchDevice.turnOff, TimedSwitchDevice.start,
        TimedSwitchDevice.resetCallbackLoop, TimedSwitchDevice.stop, Duration.exceeded]
    | some saf =>
      cases saf <;> cases st <;>
        simp [LatchedSwitchDevice.fire, LatchedSwitchDevice.isOn, TimedSwitchDevice.fire,
          TimedSwitchDevice.turnOn, TimedSwitchDevice.turnOff, TimedSwitchDevice.start,
          TimedSwitchDevice.resetCallbackLoop, TimedSwitchDevice.stop, Duration.exceeded]

/-- Unfolds the stored-back integrator of one getControllerResponse call. -/
theorem response_state_sumT (d : PIDController) (T now : ℚ) :
    (d.getControllerResponse T now).state.sumT
      = clamp (d.sumT + (T - d.tempSetPoint) * (now - d.lastTime))
          (-d.maxIntegrator) d.maxIntegrator := rfl

/-- maxIntegrator is set in the constructor and never written afterwards. -/
theorem runOps_maxIntegrator (ops : List PIDOp) (d : PIDController) :
    (d.runOps ops).maxIntegrator = d.maxIntegrator := by
  induction ops generalizing d with
  | nil => rfl
  | cons op rest ih =>
    cases op with
    | setTemp T =>
      simpa [PIDController.runOps, PIDController.setDesiredTemp] using ih (d.setDesiredTemp T)
    | respond T now =>
      simpa [PIDController.runOps] using ih (d.getControllerResponse T now).state

/-- Every reachable controller state keeps the integrator inside the clamp
interval. -/
theorem runOps_inv (ops : List PIDOp) (d : PIDController)
    (h0 : 0 ≤ d.maxIntegrator) (h : PIDInv d) : PIDInv (d.runOps ops) := by
  induction ops generalizing d with
  | nil => exact h
  | cons op rest ih =>
    cases op with
    | setTemp T =>
      exact ih (d.setDesiredTemp T) h0 ⟨neg_nonpos.mpr h0, h0⟩
    | respond T now =>
      refine ih (d.getControllerResponse T now).state h0 ?_
      constructor
      · exact lo_le_clamp _ _ _ (le_trans (neg_nonpos.mpr h0) h0)
      · exact clamp_le_hi _ _ _

/-- C5.  On any sequence of setDesiredTemp / getControllerResponse calls from
a freshly constructed controller, integratorSum stays inside
[-maxIntegrator, +maxIntegrator] where maxIntegrator = |0.5 / Ki|; each
update clamps and stores, so an update whose increment reaches the bound
lands exactly on +maxIntegrator (resp. -maxIntegrator) and never beyond. -/
theorem integratorSum_clamped (pb ti td : ℚ) (ops : List PIDOp) :
    (mkPID pb ti td).maxIntegrator = |0.5 / (mkPID pb ti td).Ki|
      ∧ |((mkPID pb ti td).runOps ops).sumT| ≤ (mkPID pb ti td).maxIntegrator
      ∧ (∀ T now : ℚ,
          (mkPID pb ti td).maxIntegrator
              ≤ ((mkPID pb ti td).runOps ops).sumT
                + (T - ((mkPID pb ti td).runOps ops).tempSetPoint)
                  * (now - ((mkPID pb ti td).runOps ops).lastTime)
            → (((mkPID pb ti td).runOps ops).getControllerResponse T now).state.sumT
                = (mkPID pb ti td).maxIntegrator)
      ∧ (∀ T now : ℚ,
          ((mkPID pb ti td).runOps ops).sumT
              + (T - ((mkPID pb ti td).runOps ops).tempSetPoint)
                * (now - ((mkPID pb ti td).runOps ops).lastTime)
              ≤ -(mkPID pb ti td).maxIntegrator
            → (((mkPID pb ti td).runOps ops).getControllerResponse T now).state.sumT
                = -(mkPID pb ti td).maxIntegrator) := by
  have h0 : (0 : ℚ) ≤ (mkPID pb ti td).maxIntegrator := abs_nonneg _
  have hinv := runOps_inv ops (mkPID pb ti td) h0 ⟨neg_nonpos.mpr h0, h0⟩
  have hmax := runOps_maxIntegrator ops (mkPID pb ti td)
  refine ⟨rfl, ?_, ?_, ?_⟩
  · exact abs_le.mpr ⟨by rw [← hmax]; exact hinv.1, by rw [← hmax]; exact hinv.2⟩
  · intro T now h
    rw [response_state_sumT, hmax]
    exact clamp_eq_hi _ _ _ h
  · intro T now h
    rw [response_state_sumT, hmax]
    exact clamp_eq_lo _ _ _ h (le_trans (neg_nonpos.mpr h0) h0)

theorem integratorSum_clamped_witness :
    (((mkPID 50 100 10).runOps []).getControllerResponse 110 100).state.sumT
      = (mkPID 50 100 10).maxIntegrator :=
  (integratorSum_clamped 50 100 10 []).2.2.1 110 100 (by
    norm_num [mkPID, PIDController.runOps])

/-- C4 counterexample.  After setDesiredTemp(100) on the controller built
from pb 50, ti 100, td 10, the very next getControllerResponse at
current temperature 110 and clock value 1000000 uses dt = 1000000 - 0: the
integral term is -1/2 (the integrator jumps straight to the +2500 clamp
bound) and the derivative term is -1/500000 — neither is suppressed or
treated as zero, contradicting the claim. -/
theorem firstResponse_integral_kick_cex :
    (((mkPID 50 100 10).setDesiredTemp 100).getControllerResponse 110 1000000).I = -(1/2)
      ∧ (((mkPID 50 100 10).setDesiredTemp 100).getControllerResponse 110 1000000).I ≠ 0
      ∧ (((mkPID 50 100 10).setDesiredTemp 100).getControllerResponse 110 1000000).D
          = -(1/500000)
      ∧ (((mkPID 50 100 10).setDesiredTemp 100).getControllerResponse 110 1000000).D ≠ 0
      ∧ (((mkPID 50 100 10).setDesiredTemp 100).getControllerResponse 110 1000000).state.sumT
          = 2500
      ∧ (mkPID 50 100 10).maxIntegrator = 2500 := by
  norm_num [mkPID, PIDController.setDesiredTemp, PIDController.getControllerResponse,
    PIDController.calculateIntegratorResponse, PIDController.calculateDerivativeResponse,
    PIDController.calculateProportionalResponse, clamp]

/-- C4 (amended).  setDesiredTemp(T) sets the setpoint, zeroes integratorSum
and resets lastTime to 0, leaving the gains and clamp bound unchanged; the
first getControllerResponse after such a reset has no suppression guard: it
uses dt = now - 0 = now, its integrator update absorbs error * now clamped
into the anti-windup interval (an integral kick whenever error * now reaches
the bound), and its derivative term is Kd * (error / now) — small for large
clock values but not zero for nonzero error. -/
theorem setDesiredTemp_reset_behavior (d : PIDController) (T Tc now : ℚ) :
    (d.setDesiredTemp T).tempSetPoint = T
      ∧ (d.setDesiredTemp T).sumT = 0
      ∧ (d.setDesiredTemp T).lastTime = 0
      ∧ (d.setDesiredTemp T).Ki = d.Ki
      ∧ (d.setDesiredTemp T).maxIntegrator = d.maxIntegrator
      ∧ ((d.setDesiredTemp T).getControllerResponse Tc now).I
          = d.Ki * clamp ((Tc - T) * now) (-d.maxIntegrator) d.maxIntegrator
      ∧ ((d.setDesiredTemp T).getControllerResponse Tc now).state.sumT
          = clamp ((Tc - T) * now) (-d.maxIntegrator) d.maxIntegrator
      ∧ ((d.setDesiredTemp T).getControllerResponse Tc now).D = d.Kd * ((Tc - T) / now) := by
  refine ⟨rfl, rfl, rfl, rfl, rfl, ?_, ?_, ?_⟩ <;>
    simp [PIDController.setDesiredTemp, PIDController.getControllerResponse,
      PIDController.calculateIntegratorResponse, PIDController.calculateDerivativeResponse,
      PIDController.calculateProportionalResponse]

/-- C7 counterexample.  A run in which every transfer succeeds and the RTD
register read returns 0x0003 (conversion value 1 with the fault bit set)
completes with the bare raw code 1; the fault-status register (read address
0x07) is never read anywhere in the sequence, so no reading is marked
faulted. -/
theorem getTemperature_ignores_faultStatus_cex :
    readRTD_run (fun k => if k = 6 then Except.ok 3 else Except.ok 0) = Except.ok 1
      ∧ BusOp.readReg8 0x07 ∉ readRTD_ops 0 0 0 := by
  constructor
  · rfl
  · decide

/-- C7 (amended).  A transport failure at any of the seven transfers of the
acquisition sequence propagates that same error to the caller of
getTemperature (no retry, no substitution); when every transfer succeeds the
call returns a plain temperature number computed from the shifted raw code,
and the sequence never reads the fault-status register, so the result carries
no faulted mark. -/
theorem transport_error_propagation (s : ℚ → ℚ) (R0 Rref : ℚ)
    (env : Nat → Except TransportError Nat) (k : Nat) (e : TransportError)
    (hk : k < 7) (hprev : ∀ j, j < k → ∃ v, env j = Except.ok v)
    (hfail : env k = Except.error e) :
    getTemperature_run s R0 Rref env = Except.error e
      ∧ (∀ c0 c1 c2 : Nat, BusOp.readReg8 0x07 ∉ readRTD_ops c0 c1 c2)
      ∧ (∀ f : Nat → Nat,
          getTemperature_run s R0 Rref (fun n => Except.ok (f n))
            = Except.ok (getTemperatureFromRt s R0 (((f 6 >>> 1 : ℕ) : ℚ) / 32768 * Rref))) := by
  refine ⟨?_, ?_, ?_⟩
  · interval_cases k
    · simp [getTemperature_run, readRTD_run, hfail]
    · obtain ⟨v0, h0⟩ := hprev 0 (by norm_num)
      simp [getTemperature_run, readRTD_run, h0, hfail]
    · obtain ⟨v0, h0⟩ := hprev 0 (by norm_num)
      obtain ⟨v1, h1⟩ := hprev 1 (by norm_num)
      simp [getTemperature_run, readRTD_run, h0, h1, hfail]
    · obtain ⟨v0, h0⟩ := hprev 0 (by norm_num)
      obtain ⟨v1, h1⟩ := hprev 1 (by norm_num)
      obtain ⟨v2, h2⟩ := hprev 2 (by norm_num)
      simp [getTemperature_run, readRTD_run, h0, h1, h2, hfail]
    · obtain ⟨v0, h0⟩ := hprev 0 (by norm_num)
      obtain ⟨v1, h1⟩ := hprev 1 (by norm_num)
      obtain ⟨v2, h2⟩ := hprev 2 (by norm_num)
      obtain ⟨v3, h3⟩ := hprev 3 (by norm_num)
      simp [getTemperature_run, readRTD_run, h0, h1, h2, h3, hfail]
    · obtain ⟨v0, h0⟩ := hprev 0 (by norm_num)
      obtain ⟨v1, h1⟩ := hprev 1 (by norm_num)
      obtain ⟨v2, h2⟩ := hprev 2 (by norm_num)
      obtain ⟨v3, h3⟩ := hprev 3 (by norm_num)
      obtain ⟨v4, h4⟩ := hprev 4 (by norm_num)
      simp [getTemperature_run, readRTD_run, h0, h1, h2, h3, h4, hfail]
    · obtain ⟨v0, h0⟩ := hprev 0 (by norm_num)
      obtain ⟨v1, h1⟩ := hprev 1 (by norm_num)
      obtain ⟨v2, h2⟩ := hprev 2 (by norm_num)
      obtain ⟨v3, h3⟩ := hprev 3 (by norm_num)
      obtain ⟨v4, h4⟩ := hprev 4 (by norm_num)
      obtain ⟨v5, h5⟩ := hprev 5 (by norm_num)
      simp [getTemperature_run, readRTD_run, h0, h1, h2, h3, h4, h5, hfail]
  · intro c0 c1 c2
    simp [readRTD_ops, clearFaultStatusOps, setBiasVoltageOps, setOneShotOps, toggleConfigBitOps]
  · intro f
    simp [getTemperature_run, readRTD_run, readRTDResult]

theorem transport_error_propagation_witness :
    getTemperature_run (fun q => q) 100 430
        (fun n => if n = 3 then Except.error ⟨5⟩ else Except.ok 0)
      = Except.error ⟨5⟩ :=
  (transport_error_propagation (fun q => q) 100 430
      (fun n => if n = 3 then Except.error ⟨5⟩ else Except.ok 0) 3 ⟨5⟩
      (by norm_num)
      (fun j hj => ⟨0, by interval_cases j <;> rfl⟩)
      rfl).1

/-- The decode body is the two-branch policy over the quadratic candidate. -/
theorem getTemperatureFromRt_eq (s : ℚ → ℚ) (R0 Rt : ℚ) :
    getTemperatureFromRt s R0 Rt
      = if 0 ≤ codeQuadT s R0 Rt then codeQuadT s R0 Rt
        else hornerPoly coeffs5thOrder (Rt / R0 * 100) := rfl

/-- C1.  The quadratic candidate computed through z1..z4 is exactly the
spec's closed form (sqrt(A^2 - 4B + 4B*Rt/R0) - A) / (2B); the decode returns
it unchanged when it is non-negative and otherwise returns the 5th-order
Horner polynomial over RRt = (Rt/R0)*100; and for any resistance below the
nominal resistance (the regime of negative temperatures such as -50 C), an
exact square root makes the quadratic candidate negative, so the decode
returns the polynomial branch, never the quadratic one. -/
theorem getTemperature_twoBranch (s : ℚ → ℚ) (R0 Rt : ℚ) :
    codeQuadT s R0 Rt = specQuadT s R0 Rt
      ∧ (0 ≤ codeQuadT s R0 Rt → getTemperatureFromRt s R0 Rt = codeQuadT s R0 Rt)
      ∧ (codeQuadT s R0 Rt < 0 →
          getTemperatureFromRt s R0 Rt = hornerPoly coeffs5thOrder (Rt / R0 * 100))
      ∧ (0 < R0 → Rt < R0 → 0 ≤ s (codeT1 R0 Rt) →
          s (codeT1 R0 Rt) * s (codeT1 R0 Rt) = codeT1 R0 Rt →
          getTemperatureFromRt s R0 Rt = hornerPoly coeffs5thOrder (Rt / R0 * 100)) := by
  have harg : codeT1 R0 Rt = rtdA * rtdA - 4 * rtdB + 4 * rtdB * Rt / R0 := by
    unfold codeT1
    ring
  refine ⟨?_, ?_, ?_, ?_⟩
  · unfold codeQuadT specQuadT
    rw [harg]
    ring
  · intro h
    rw [getTemperatureFromRt_eq, if_pos h]
  · intro h
    rw [getTemperatureFromRt_eq, if_neg (not_le.mpr h)]
  · intro hR0 hRt hs0 hs2
    have hB : rtdB < 0 := by norm_num [rtdB]
    have hA : 0 < rtdA := by norm_num [rtdA]
    have hdiv : Rt / R0 < 1 := (div_lt_one hR0).mpr hRt
    have hprod : 0 < 4 * rtdB * (Rt / R0 - 1) :=
      mul_pos_of_neg_of_neg (by linarith) (by linarith)
    have ht1 : rtdA * rtdA < codeT1 R0 Rt := by
      have h2 : codeT1 R0 Rt = rtdA * rtdA + 4 * rtdB * (Rt / R0 - 1) := by
        unfold codeT1
        ring
      rw [h2]
      linarith
    have hsA : rtdA < s (codeT1 R0 Rt) := by
      by_contra hcon
      push_neg at hcon
      nlinarith [mul_le_mul hcon hcon hs0 (le_of_lt hA)]
    have ht : codeQuadT s R0 Rt < 0 := by
      unfold codeQuadT
      apply div_neg_of_pos_of_neg
      · linarith
      · linarith
    rw [getTemperatureFromRt_eq, if_neg (not_le.mpr ht)]

theorem getTemperature_twoBranch_witness :
    getTemperatureFromRt (fun _ => 1 / 250) 100 (7546709 / 110000)
      = hornerPoly coeffs5thOrder ((7546709 / 110000) / 100 * 100) :=
  (getTemperature_twoBranch (fun _ => 1 / 250) 100 (7546709 / 110000)).2.2.2
    (by norm_num) (by norm_num) (by norm_num)
    (by norm_num [codeT1, rtdA, rtdB])
